import Mathlib

set_option maxRecDepth 8000

/-!
Verification of the seccomp filter construction and installation logic in
`core/jni/android_os_seccomp.cpp` (classic-BPF syscall filter builder for a
dual-architecture ARM/AArch64 runtime).

The data model and every operation below are shallow embeddings of the C++
source: `std::vector<sock_filter>` becomes `List SockFilter`, the mutating
helpers become functions from the old list to the new one, the fallible jump
patcher returns `Option`, and the `prctl` kernel call's outcome is an explicit
boolean parameter.  The kernel-side evaluation of an installed program is not
part of the repository and is modelled from the specification (forward jumps
skip a counted number of subsequent instructions; return instructions
terminate with their immediate).
-/

namespace Seccomp

/-- A classic BPF instruction (`struct sock_filter`): 16-bit opcode, two 8-bit
relative jump offsets (`jt`, `jf`), and a 32-bit immediate `k`. -/
structure SockFilter where
  code : Nat
  jt : Nat
  jf : Nat
  k : Nat
deriving DecidableEq

/-- `typedef std::vector<sock_filter> filter;` -/
abbrev filter := List SockFilter

/-- `offsetof(struct seccomp_data, nr)` = 0: the syscall-number field. -/
def syscall_nr : Nat := 0

/-- `offsetof(struct seccomp_data, arch)` = 4: the architecture field. -/
def arch_nr : Nat := 4

/-- `AUDIT_ARCH_ARM` = `EM_ARM | __AUDIT_ARCH_LE` = 0x40000028. -/
def AUDIT_ARCH_ARM : Nat := 0x40000028

/-- `AUDIT_ARCH_AARCH64` = `EM_AARCH64 | __AUDIT_ARCH_64BIT | __AUDIT_ARCH_LE`
= 0xC00000B7. -/
def AUDIT_ARCH_AARCH64 : Nat := 0xC00000B7

/-- `SECCOMP_RET_KILL` = 0x00000000. -/
def SECCOMP_RET_KILL : Nat := 0x00000000

/-- `SECCOMP_RET_TRAP` = 0x00030000. -/
def SECCOMP_RET_TRAP : Nat := 0x00030000

/-- `SECCOMP_RET_ERRNO` = 0x00050000. -/
def SECCOMP_RET_ERRNO : Nat := 0x00050000

/-- `SECCOMP_RET_TRACE` = 0x7ff00000. -/
def SECCOMP_RET_TRACE : Nat := 0x7ff00000

/-- `SECCOMP_RET_ALLOW` = 0x7fff0000. -/
def SECCOMP_RET_ALLOW : Nat := 0x7fff0000

/-- Opcode `BPF_LD|BPF_W|BPF_ABS` (0x00|0x00|0x20): load a 32-bit field of the
input `seccomp_data` record into the accumulator. -/
def BPF_LD_W_ABS : Nat := 0x20

/-- Opcode `BPF_JMP|BPF_JEQ|BPF_K` (0x05|0x10|0x00): compare the accumulator
with the immediate `k`; skip `jt` following instructions on equality, else
skip `jf`. -/
def BPF_JMP_JEQ_K : Nat := 0x15

/-- Opcode `BPF_RET|BPF_K` (0x06|0x00): terminate evaluation returning the
immediate `k`. -/
def BPF_RET_K : Nat := 0x06

/-- `BPF_STMT(code, k)`: an instruction with both jump offsets zero. -/
def BPF_STMT (code k : Nat) : SockFilter := ⟨code, 0, 0, k⟩

/-- `BPF_JUMP(code, k, jt, jf)`. -/
def BPF_JUMP (code k jt jf : Nat) : SockFilter := ⟨code, jt, jf, k⟩

/-- `Kill`: append an unconditional kill return. -/
def Kill (f : filter) : filter :=
  f ++ [BPF_STMT BPF_RET_K SECCOMP_RET_KILL]

/-- `Trap`: append an unconditional trap return. -/
def Trap (f : filter) : filter :=
  f ++ [BPF_STMT BPF_RET_K SECCOMP_RET_TRAP]

/-- `Error`: append an unconditional errno return. -/
def Error (f : filter) (retcode : Nat) : filter :=
  f ++ [BPF_STMT BPF_RET_K (SECCOMP_RET_ERRNO + retcode)]

/-- `Trace`: append an unconditional trace return. -/
def Trace (f : filter) : filter :=
  f ++ [BPF_STMT BPF_RET_K SECCOMP_RET_TRACE]

/-- `Allow`: append an unconditional allow return. -/
def Allow (f : filter) : filter :=
  f ++ [BPF_STMT BPF_RET_K SECCOMP_RET_ALLOW]

/-- `AllowSyscall(f, num)`: append a compare-equal against `num`
(true-skip 0, false-skip 1) immediately followed by an Allow return. -/
def AllowSyscall (f : filter) (num : Nat) : filter :=
  Allow (f ++ [BPF_JUMP BPF_JMP_JEQ_K num 0 1])

/-- `ExamineSyscall`: append a load of the syscall-number field. -/
def ExamineSyscall (f : filter) : filter :=
  f ++ [BPF_STMT BPF_LD_W_ABS syscall_nr]

/-- `SetValidateArchitectureJumpTarget(offset, f)`: back-patch the placeholder
at `offset` with a compare-equal jump to the current end of the program.
`jump_length = f.size() - offset - 1`; the `(__u8)` cast is modelled as
`% 256`, and the patch fails (C returns -1, modelled as `none`) exactly when
the cast changes the value.  Every call site passes `offset < f.length`, where
the `size_t` subtraction agrees with truncated `Nat` subtraction. -/
def SetValidateArchitectureJumpTarget (offset : Nat) (f : filter) : Option filter :=
  let jump_length := f.length - offset - 1
  let u8_jump_length := jump_length % 256
  if u8_jump_length ≠ jump_length then none
  else some (f.set offset (BPF_JUMP BPF_JMP_JEQ_K AUDIT_ARCH_ARM u8_jump_length 0))

/-- `ValidateArchitectureAndJumpIfNeeded(f)`: emit the dispatch prologue
(load arch; jeq AARCH64 skip 2; jeq ARM skip 1; Trap) and return the new
program together with the index `f.size() - 2` of the placeholder jump. -/
def ValidateArchitectureAndJumpIfNeeded (f : filter) : filter × Nat :=
  let f := f ++ [BPF_STMT BPF_LD_W_ABS arch_nr]
  let f := f ++ [BPF_JUMP BPF_JMP_JEQ_K AUDIT_ARCH_AARCH64 2 0]
  let f := f ++ [BPF_JUMP BPF_JMP_JEQ_K AUDIT_ARCH_ARM 1 0]
  let f := Trap f
  (f, f.length - 2)

/-- The `sock_fprog` record handed to `prctl`: an `unsigned short` length plus
the instruction sequence the pointer designates. -/
structure SockFprog where
  len : Nat
  filt : filter
deriving DecidableEq

/-- The `sock_fprog` that `install_filter` builds:
`{ (unsigned short) f.size(), &f[0] }`.  The cast of the length to
`unsigned short` is the reduction modulo 2^16. -/
def install_filter_prog (f : filter) : SockFprog :=
  ⟨f.length % 65536, f⟩

/-- `install_filter(f)`: issues the one-shot `prctl(PR_SET_SECCOMP, ...)` call
with `install_filter_prog f`.  The kernel's verdict is external input,
modelled by the parameter `prctl_ok`; the function returns it as its boolean
result. -/
def install_filter (f : filter) (prctl_ok : Bool) : Bool :=
  prctl_ok

/-- The body of `set_seccomp_filter` from the start through the 64-bit
section's `Trap(f)` (lines 114-153): dispatch prologue, examine-syscall, the
`arm64_filter` baseline fragment copied verbatim, the fourteen explicit
`AllowSyscall` calls in source order, then the Trap terminator.  Returns the
program together with `offset_to_32bit_filter`. -/
def build_phase64 (arm64_filter : filter) : filter × Nat :=
  let v := ValidateArchitectureAndJumpIfNeeded ([] : filter)
  let offset_to_32bit_filter := v.2
  let f := ExamineSyscall v.1
  let f := f ++ arm64_filter
  let f := AllowSyscall f 41
  let f := AllowSyscall f 31
  let f := AllowSyscall f 30
  let f := AllowSyscall f 178
  let f := AllowSyscall f 98
  let f := AllowSyscall f 220
  let f := AllowSyscall f 139
  let f := AllowSyscall f 240
  let f := AllowSyscall f 128
  let f := AllowSyscall f 278
  let f := AllowSyscall f 241
  let f := AllowSyscall f 130
  let f := AllowSyscall f 128
  let f := AllowSyscall f 267
  let f := Trap f
  (f, offset_to_32bit_filter)

/-- The 32-bit half of `set_seccomp_filter` (lines 159-222), run after the
jump patch succeeded: examine-syscall, the `arm_filter` baseline fragment
copied verbatim, the twenty-five explicit `AllowSyscall` calls in source
order, then the Trap terminator. -/
def build_phase32 (f0 : filter) (arm_filter : filter) : filter :=
  let f := ExamineSyscall f0
  let f := f ++ arm_filter
  let f := AllowSyscall f 120
  let f := AllowSyscall f 240
  let f := AllowSyscall f 119
  let f := AllowSyscall f 173
  let f := AllowSyscall f 363
  let f := AllowSyscall f 224
  let f := AllowSyscall f 383
  let f := AllowSyscall f 384
  let f := AllowSyscall f 190
  let f := AllowSyscall f 238
  let f := AllowSyscall f 0
  let f := AllowSyscall f 42
  let f := AllowSyscall f 364
  let f := AllowSyscall f 33
  let f := AllowSyscall f 195
  let f := AllowSyscall f 5
  let f := AllowSyscall f 141
  let f := AllowSyscall f 217
  let f := AllowSyscall f 351
  let f := AllowSyscall f 252
  let f := AllowSyscall f 85
  let f := AllowSyscall f 250
  let f := AllowSyscall f 8
  let f := AllowSyscall f 10
  let f := AllowSyscall f 196
  let f := Trap f
  f

/-- The construction portion of `set_seccomp_filter`: 64-bit phase, jump
patch, 32-bit phase.  `none` when `SetValidateArchitectureJumpTarget`
fails (the only failure point of construction); in that case the C++
executes `return -1;` before reaching `install_filter`. -/
def set_seccomp_filter_build (arm64_filter arm_filter : filter) : Option filter :=
  let p := build_phase64 arm64_filter
  match SetValidateArchitectureJumpTarget p.2 p.1 with
  | none => none
  | some f => some (build_phase32 f arm_filter)

/-- What one call of `set_seccomp_filter` returned and did: `ret` is the value
of the `bool` return, `installCall` is the `sock_fprog` argument handed to
`prctl`, when that call was reached. -/
structure SetFilterResult where
  ret : Bool
  installCall : Option SockFprog
deriving DecidableEq

/-- `set_seccomp_filter()`, parameterised by the two baseline fragments and
the kernel's verdict on the `prctl` call.  Note the faithful modelling of the
patch-failure path: the function's return type is `bool`, and the statement
`return -1;` (line 156) converts -1 to `true` — so on jump-patch failure the
function reports success, and no install call is made. -/
def set_seccomp_filter (arm64_filter arm_filter : filter) (prctl_ok : Bool) :
    SetFilterResult :=
  match set_seccomp_filter_build arm64_filter arm_filter with
  | none => ⟨true, none⟩
  | some f => ⟨install_filter f prctl_ok, some (install_filter_prog f)⟩

/-- What `Seccomp_setPolicy` does to the process: return control to the
caller, or terminate with an exit status. -/
inductive PolicyOutcome where
  | returned : PolicyOutcome
  | exited : Nat → PolicyOutcome
deriving DecidableEq

/-- `Seccomp_setPolicy`: calls `set_seccomp_filter` and, exactly when it
returns `false`, terminates the process via `exit(1)`. -/
def Seccomp_setPolicy (arm64_filter arm_filter : filter) (prctl_ok : Bool) :
    PolicyOutcome :=
  if (set_seccomp_filter arm64_filter arm_filter prctl_ok).ret then
    PolicyOutcome.returned
  else
    PolicyOutcome.exited 1

/-- The `seccomp_data` fields a filter built here can inspect: the syscall
number (offset 0) and the architecture field (offset 4). -/
structure SeccompData where
  nr : Nat
  arch : Nat
deriving DecidableEq

/-- Modelled from the spec: kernel-side evaluation of a filter program (the
kernel's BPF interpreter is not part of this repository).  Per the spec's
instruction model, a jump offset is "the number of subsequent instructions to
skip on a branch", a return instruction terminates evaluation with its
immediate (the allow/trap/kill action), and a load selects the syscall-number
or architecture field of the input record.  Evaluation therefore proceeds on
the suffix of the program from the current position; `acc` is the
accumulator.  A malformed program (running off the end, an opcode or load
offset the builder never emits) evaluates to `none`. -/
def run (d : SeccompData) : List SockFilter → Nat → Option Nat
  | [], _ => none
  | i :: rest, acc =>
    if i.code = BPF_LD_W_ABS then
      if i.k = syscall_nr then run d rest d.nr
      else if i.k = arch_nr then run d rest d.arch
      else none
    else if i.code = BPF_JMP_JEQ_K then
      run d (rest.drop (if acc = i.k then i.jt else i.jf)) acc
    else if i.code = BPF_RET_K then
      some i.k
    else none
termination_by l _ => l.length
decreasing_by
  all_goals simp [List.length_drop]
  all_goals omega

/-- Evaluate a whole program on one input (accumulator starts at 0). -/
def seccompEval (p : filter) (d : SeccompData) : Option Nat :=
  run d p 0

/-- The compare-equal/Allow pair sequence that a run of `AllowSyscall` calls
for the numbers `ns` appends. -/
def pairsOf : List Nat → List SockFilter
  | [] => []
  | n :: ns =>
      BPF_JUMP BPF_JMP_JEQ_K n 0 1 ::
      BPF_STMT BPF_RET_K SECCOMP_RET_ALLOW :: pairsOf ns

/-- Modelled from the spec: the opaque per-architecture baseline fragment
(`arm64_filter` / `arm_filter`, generated outside this repository).  The spec
says the core knows nothing of its contents beyond "more allowed syscalls",
i.e. it is an ordered sequence of allow rules for a list of syscall numbers;
it is modelled as the compare-equal/Allow pairs for that list. -/
def baselineFragment (ns : List Nat) : filter :=
  pairsOf ns

/-- The fourteen syscall numbers of the explicit 64-bit allow-list, in source
order (128 appears twice, lines 138 and 148). -/
def allow64 : List Nat :=
  [41, 31, 30, 178, 98, 220, 139, 240, 128, 278, 241, 130, 128, 267]

/-- The twenty-five syscall numbers of the explicit 32-bit allow-list, in
source order. -/
def allow32 : List Nat :=
  [120, 240, 119, 173, 363, 224, 383, 384, 190, 238, 0, 42, 364, 33, 195,
   5, 141, 217, 351, 252, 85, 250, 8, 10, 196]

/-- One architecture section as the Section Assembler leaves it: load the
syscall number, the baseline fragment, the explicit allow pairs, Trap. -/
def sectionBody (ns : List Nat) (allowNums : List Nat) : filter :=
  BPF_STMT BPF_LD_W_ABS syscall_nr ::
    (baselineFragment ns ++ pairsOf allowNums ++
      [BPF_STMT BPF_RET_K SECCOMP_RET_TRAP])

/-- The fully assembled and patched program, for baseline fragments built
from the syscall-number lists `ns64` and `ns32`: dispatch prologue (with the
placeholder already patched to skip `2 * ns64.length + 31` instructions, the
length of the 64-bit section plus one), then the 64-bit section, then the
32-bit section. -/
def patchedProgram (ns64 ns32 : List Nat) : filter :=
  BPF_STMT BPF_LD_W_ABS arch_nr ::
  BPF_JUMP BPF_JMP_JEQ_K AUDIT_ARCH_AARCH64 2 0 ::
  BPF_JUMP BPF_JMP_JEQ_K AUDIT_ARCH_ARM (2 * ns64.length + 31) 0 ::
  BPF_STMT BPF_RET_K SECCOMP_RET_TRAP ::
  (sectionBody ns64 allow64 ++ sectionBody ns32 allow32)

/-- The 64-bit allow-list with its second, duplicate entry for syscall 128
(source line 148) removed. -/
def allow64dedup : List Nat :=
  [41, 31, 30, 178, 98, 220, 139, 240, 128, 278, 241, 130, 267]

/-- `build_phase64` with the second `AllowSyscall(f, 128)` call (source line
148) omitted; everything else identical. -/
def build_phase64dedup (arm64_filter : filter) : filter × Nat :=
  let v := ValidateArchitectureAndJumpIfNeeded ([] : filter)
  let offset_to_32bit_filter := v.2
  let f := ExamineSyscall v.1
  let f := f ++ arm64_filter
  let f := AllowSyscall f 41
  let f := AllowSyscall f 31
  let f := AllowSyscall f 30
  let f := AllowSyscall f 178
  let f := AllowSyscall f 98
  let f := AllowSyscall f 220
  let f := AllowSyscall f 139
  let f := AllowSyscall f 240
  let f := AllowSyscall f 128
  let f := AllowSyscall f 278
  let f := AllowSyscall f 241
  let f := AllowSyscall f 130
  let f := AllowSyscall f 267
  let f := Trap f
  (f, offset_to_32bit_filter)

/-- The construction with the duplicate allow entry removed. -/
def set_seccomp_filter_build_dedup (arm64_filter arm_filter : filter) :
    Option filter :=
  let p := build_phase64dedup arm64_filter
  match SetValidateArchitectureJumpTarget p.2 p.1 with
  | none => none
  | some f => some (build_phase32 f arm_filter)

/-- The deduplicated patched program: the 64-bit section is two instructions
shorter, and the patched jump distance shrinks by two accordingly. -/
def patchedProgramDedup (ns64 ns32 : List Nat) : filter :=
  BPF_STMT BPF_LD_W_ABS arch_nr ::
  BPF_JUMP BPF_JMP_JEQ_K AUDIT_ARCH_AARCH64 2 0 ::
  BPF_JUMP BPF_JMP_JEQ_K AUDIT_ARCH_ARM (2 * ns64.length + 29) 0 ::
  BPF_STMT BPF_RET_K SECCOMP_RET_TRAP ::
  (sectionBody ns64 allow64dedup ++ sectionBody ns32 allow32)

/-! ### Evaluator step lemmas -/

theorem run_nil (d : SeccompData) (acc : Nat) : run d [] acc = none := by
  simp [run]

theorem run_ret (d : SeccompData) (k : Nat) (rest : List SockFilter) (acc : Nat) :
    run d (BPF_STMT BPF_RET_K k :: rest) acc = some k := by
  simp [run, BPF_STMT, BPF_RET_K, BPF_LD_W_ABS, BPF_JMP_JEQ_K]

theorem run_ld_nr (d : SeccompData) (rest : List SockFilter) (acc : Nat) :
    run d (BPF_STMT BPF_LD_W_ABS syscall_nr :: rest) acc = run d rest d.nr := by
  simp [run, BPF_STMT, BPF_LD_W_ABS, syscall_nr]

theorem run_ld_arch (d : SeccompData) (rest : List SockFilter) (acc : Nat) :
    run d (BPF_STMT BPF_LD_W_ABS arch_nr :: rest) acc = run d rest d.arch := by
  simp [run, BPF_STMT, BPF_LD_W_ABS, syscall_nr, arch_nr]

theorem run_jeq (d : SeccompData) (n jt jf : Nat) (rest : List SockFilter) (acc : Nat) :
    run d (BPF_JUMP BPF_JMP_JEQ_K n jt jf :: rest) acc
      = run d (rest.drop (if acc = n then jt else jf)) acc := by
  simp [run, BPF_JUMP, BPF_JMP_JEQ_K, BPF_LD_W_ABS]

/-- Evaluating a run of compare-equal/Allow pairs: returns Allow when the
accumulator is one of the compared numbers, otherwise falls through to the
instructions after the pairs with the accumulator unchanged. -/
theorem run_pairs (d : SeccompData) (ns : List Nat) (rest : List SockFilter) (acc : Nat) :
    run d (pairsOf ns ++ rest) acc
      = if acc ∈ ns then some SECCOMP_RET_ALLOW else run d rest acc := by
  induction ns with
  | nil => simp [pairsOf]
  | cons n ns ih =>
      by_cases h : acc = n
      · simp [pairsOf, run_jeq, h, run_ret]
      · simp [pairsOf, run_jeq, h, run_ret, ih]

/-! ### Shape of the assembled program -/

theorem pairsOf_length (ns : List Nat) : (pairsOf ns).length = 2 * ns.length := by
  induction ns with
  | nil => simp [pairsOf]
  | cons n ns ih => simp [pairsOf, ih]; omega

theorem build_phase64_eq (a64 : filter) :
    build_phase64 a64 =
      (BPF_STMT BPF_LD_W_ABS arch_nr ::
       BPF_JUMP BPF_JMP_JEQ_K AUDIT_ARCH_AARCH64 2 0 ::
       BPF_JUMP BPF_JMP_JEQ_K AUDIT_ARCH_ARM 1 0 ::
       BPF_STMT BPF_RET_K SECCOMP_RET_TRAP ::
       BPF_STMT BPF_LD_W_ABS syscall_nr ::
       (a64 ++ pairsOf allow64 ++ [BPF_STMT BPF_RET_K SECCOMP_RET_TRAP]), 2) := by
  simp [build_phase64, ValidateArchitectureAndJumpIfNeeded, ExamineSyscall,
        AllowSyscall, Allow, Trap, pairsOf, allow64]

theorem build_phase32_eq (f0 a32 : filter) :
    build_phase32 f0 a32 =
      f0 ++ (BPF_STMT BPF_LD_W_ABS syscall_nr ::
        (a32 ++ pairsOf allow32 ++ [BPF_STMT BPF_RET_K SECCOMP_RET_TRAP])) := by
  simp [build_phase32, ExamineSyscall, AllowSyscall, Allow, Trap, pairsOf, allow32]

/-- The Offset Patcher succeeds when the jump distance fits in a byte,
overwriting the instruction at `offset` with the compare-equal jump. -/
theorem SetValidateArchitectureJumpTarget_some (offset : Nat) (f : filter)
    (h : f.length - offset - 1 ≤ 255) :
    SetValidateArchitectureJumpTarget offset f
      = some (f.set offset
          (BPF_JUMP BPF_JMP_JEQ_K AUDIT_ARCH_ARM (f.length - offset - 1) 0)) := by
  unfold SetValidateArchitectureJumpTarget
  have hm : (f.length - offset - 1) % 256 = f.length - offset - 1 :=
    Nat.mod_eq_of_lt (by omega)
  simp [hm]

/-- The Offset Patcher fails when the jump distance exceeds 255. -/
theorem SetValidateArchitectureJumpTarget_none (offset : Nat) (f : filter)
    (h : 255 < f.length - offset - 1) :
    SetValidateArchitectureJumpTarget offset f = none := by
  unfold SetValidateArchitectureJumpTarget
  have hlt : (f.length - offset - 1) % 256 < 256 :=
    Nat.mod_lt _ (by omega)
  have hm : (f.length - offset - 1) % 256 ≠ f.length - offset - 1 := by omega
  simp [hm]

/-- Full description of the construction for arbitrary baseline fragments:
it succeeds exactly when the patch distance `a64.length + 31` fits in a byte,
and then produces the patched dispatch prologue followed by the two
architecture sections. -/
theorem set_seccomp_filter_build_eq (a64 a32 : filter) :
    set_seccomp_filter_build a64 a32 =
      if a64.length + 31 ≤ 255 then
        some (BPF_STMT BPF_LD_W_ABS arch_nr ::
              BPF_JUMP BPF_JMP_JEQ_K AUDIT_ARCH_AARCH64 2 0 ::
              BPF_JUMP BPF_JMP_JEQ_K AUDIT_ARCH_ARM (a64.length + 31) 0 ::
              BPF_STMT BPF_RET_K SECCOMP_RET_TRAP ::
              ((BPF_STMT BPF_LD_W_ABS syscall_nr ::
                 (a64 ++ pairsOf allow64 ++
                   [BPF_STMT BPF_RET_K SECCOMP_RET_TRAP])) ++
               (BPF_STMT BPF_LD_W_ABS syscall_nr ::
                 (a32 ++ pairsOf allow32 ++
                   [BPF_STMT BPF_RET_K SECCOMP_RET_TRAP]))))
      else none := by
  have hA : (pairsOf allow64).length = 28 := by
    rw [pairsOf_length]; rfl
  unfold set_seccomp_filter_build
  rw [build_phase64_eq]
  dsimp only
  have hL : (BPF_STMT BPF_LD_W_ABS arch_nr ::
       BPF_JUMP BPF_JMP_JEQ_K AUDIT_ARCH_AARCH64 2 0 ::
       BPF_JUMP BPF_JMP_JEQ_K AUDIT_ARCH_ARM 1 0 ::
       BPF_STMT BPF_RET_K SECCOMP_RET_TRAP ::
       BPF_STMT BPF_LD_W_ABS syscall_nr ::
       (a64 ++ pairsOf allow64 ++
         [BPF_STMT BPF_RET_K SECCOMP_RET_TRAP])).length = a64.length + 34 := by
    simp [hA]
  by_cases hc : a64.length + 31 ≤ 255
  · rw [SetValidateArchitectureJumpTarget_some 2 _ (by rw [hL]; omega)]
    rw [if_pos hc]
    have hd : (BPF_STMT BPF_LD_W_ABS arch_nr ::
       BPF_JUMP BPF_JMP_JEQ_K AUDIT_ARCH_AARCH64 2 0 ::
       BPF_JUMP BPF_JMP_JEQ_K AUDIT_ARCH_ARM 1 0 ::
       BPF_STMT BPF_RET_K SECCOMP_RET_TRAP ::
       BPF_STMT BPF_LD_W_ABS syscall_nr ::
       (a64 ++ pairsOf allow64 ++
         [BPF_STMT BPF_RET_K SECCOMP_RET_TRAP])).length - 2 - 1
         = a64.length + 31 := by
      rw [hL]
      omega
    rw [hd]
    dsimp only
    rw [build_phase32_eq]
    simp [List.set]
  · rw [SetValidateArchitectureJumpTarget_none 2 _ (by rw [hL]; omega)]
    rw [if_neg hc]

/-- Construction succeeds when the 64-bit baseline has at most 112 allow
rules (jump distance `2 * ns64.length + 31 ≤ 255`), producing exactly
`patchedProgram`. -/
theorem set_seccomp_filter_build_success (ns64 ns32 : List Nat)
    (h : ns64.length ≤ 112) :
    set_seccomp_filter_build (baselineFragment ns64) (baselineFragment ns32)
      = some (patchedProgram ns64 ns32) := by
  rw [set_seccomp_filter_build_eq]
  rw [if_pos (by rw [baselineFragment, pairsOf_length]; omega)]
  simp [patchedProgram, sectionBody, baselineFragment, pairsOf_length]

/-- Construction fails (jump distance over 255) when the 64-bit baseline has
more than 112 allow rules. -/
theorem set_seccomp_filter_build_fail (ns64 ns32 : List Nat)
    (h : 112 < ns64.length) :
    set_seccomp_filter_build (baselineFragment ns64) (baselineFragment ns32)
      = none := by
  rw [set_seccomp_filter_build_eq]
  rw [if_neg (by rw [baselineFragment, pairsOf_length]; omega)]

/-! ### Evaluation of the assembled program -/

/-- Evaluating one architecture section followed by anything: Allow when the
syscall number is in the baseline list or the explicit allow-list, else Trap
(the section's own terminator; the following instructions are never
reached). -/
theorem run_sectionBody (d : SeccompData) (ns allowNums : List Nat)
    (rest : List SockFilter) (acc : Nat) :
    run d (sectionBody ns allowNums ++ rest) acc
      = if d.nr ∈ ns then some SECCOMP_RET_ALLOW
        else if d.nr ∈ allowNums then some SECCOMP_RET_ALLOW
        else some SECCOMP_RET_TRAP := by
  rw [sectionBody]
  rw [List.cons_append, run_ld_nr]
  rw [List.append_assoc, List.append_assoc, baselineFragment]
  rw [run_pairs]
  by_cases h1 : d.nr ∈ ns
  · rw [if_pos h1, if_pos h1]
  · rw [if_neg h1, if_neg h1, run_pairs]
    by_cases h2 : d.nr ∈ allowNums
    · rw [if_pos h2, if_pos h2]
    · rw [if_neg h2, if_neg h2, List.cons_append, run_ret]

/-- The length of one architecture section. -/
theorem sectionBody_length (ns allowNums : List Nat) :
    (sectionBody ns allowNums).length
      = 2 * ns.length + 2 * allowNums.length + 2 := by
  simp [sectionBody, baselineFragment, pairsOf_length]
  omega

/-- Complete input/output description of the patched program: AArch64 inputs
are decided by the 64-bit section, ARM inputs by the 32-bit section, anything
else traps in the dispatcher. -/
theorem seccompEval_patchedProgram (ns64 ns32 : List Nat) (d : SeccompData) :
    seccompEval (patchedProgram ns64 ns32) d
      = if d.arch = AUDIT_ARCH_AARCH64 then
          (if d.nr ∈ ns64 then some SECCOMP_RET_ALLOW
           else if d.nr ∈ allow64 then some SECCOMP_RET_ALLOW
           else some SECCOMP_RET_TRAP)
        else if d.arch = AUDIT_ARCH_ARM then
          (if d.nr ∈ ns32 then some SECCOMP_RET_ALLOW
           else if d.nr ∈ allow32 then some SECCOMP_RET_ALLOW
           else some SECCOMP_RET_TRAP)
        else some SECCOMP_RET_TRAP := by
  rw [seccompEval, patchedProgram, run_ld_arch, run_jeq]
  by_cases hA : d.arch = AUDIT_ARCH_AARCH64
  · rw [if_pos hA, if_pos hA]
    rw [List.drop_succ_cons, List.drop_succ_cons, List.drop_zero]
    rw [run_sectionBody]
  · rw [if_neg hA, if_neg hA, List.drop_zero, run_jeq]
    by_cases hB : d.arch = AUDIT_ARCH_ARM
    · rw [if_pos hB, if_pos hB]
      have hd : (BPF_STMT BPF_RET_K SECCOMP_RET_TRAP ::
            (sectionBody ns64 allow64 ++ sectionBody ns32 allow32)).drop
              (2 * ns64.length + 31)
          = sectionBody ns32 allow32 := by
        rw [show (BPF_STMT BPF_RET_K SECCOMP_RET_TRAP ::
              (sectionBody ns64 allow64 ++ sectionBody ns32 allow32))
            = (BPF_STMT BPF_RET_K SECCOMP_RET_TRAP ::
              sectionBody ns64 allow64) ++ sectionBody ns32 allow32 from by
          simp]
        refine List.drop_left' ?_
        rw [List.length_cons, sectionBody_length]
        rw [show allow64.length = 14 from rfl]
      rw [hd]
      rw [show sectionBody ns32 allow32
            = sectionBody ns32 allow32 ++ [] from by simp]
      rw [run_sectionBody]
    · rw [if_neg hB, List.drop_zero, run_ret, if_neg hB]

/-! ### The build with the duplicate 64-bit allow entry removed -/

theorem build_phase64dedup_eq (a64 : filter) :
    build_phase64dedup a64 =
      (BPF_STMT BPF_LD_W_ABS arch_nr ::
       BPF_JUMP BPF_JMP_JEQ_K AUDIT_ARCH_AARCH64 2 0 ::
       BPF_JUMP BPF_JMP_JEQ_K AUDIT_ARCH_ARM 1 0 ::
       BPF_STMT BPF_RET_K SECCOMP_RET_TRAP ::
       BPF_STMT BPF_LD_W_ABS syscall_nr ::
       (a64 ++ pairsOf allow64dedup ++ [BPF_STMT BPF_RET_K SECCOMP_RET_TRAP]), 2) := by
  simp [build_phase64dedup, ValidateArchitectureAndJumpIfNeeded, ExamineSyscall,
        AllowSyscall, Allow, Trap, pairsOf, allow64dedup]

theorem set_seccomp_filter_build_dedup_eq (a64 a32 : filter) :
    set_seccomp_filter_build_dedup a64 a32 =
      if a64.length + 29 ≤ 255 then
        some (BPF_STMT BPF_LD_W_ABS arch_nr ::
              BPF_JUMP BPF_JMP_JEQ_K AUDIT_ARCH_AARCH64 2 0 ::
              BPF_JUMP BPF_JMP_JEQ_K AUDIT_ARCH_ARM (a64.length + 29) 0 ::
              BPF_STMT BPF_RET_K SECCOMP_RET_TRAP ::
              ((BPF_STMT BPF_LD_W_ABS syscall_nr ::
                 (a64 ++ pairsOf allow64dedup ++
                   [BPF_STMT BPF_RET_K SECCOMP_RET_TRAP])) ++
               (BPF_STMT BPF_LD_W_ABS syscall_nr ::
                 (a32 ++ pairsOf allow32 ++
                   [BPF_STMT BPF_RET_K SECCOMP_RET_TRAP]))))
      else none := by
  have hA : (pairsOf allow64dedup).length = 26 := by
    rw [pairsOf_length]; rfl
  unfold set_seccomp_filter_build_dedup
  rw [build_phase64dedup_eq]
  dsimp only
  have hL : (BPF_STMT BPF_LD_W_ABS arch_nr ::
       BPF_JUMP BPF_JMP_JEQ_K AUDIT_ARCH_AARCH64 2 0 ::
       BPF_JUMP BPF_JMP_JEQ_K AUDIT_ARCH_ARM 1 0 ::
       BPF_STMT BPF_RET_K SECCOMP_RET_TRAP ::
       BPF_STMT BPF_LD_W_ABS syscall_nr ::
       (a64 ++ pairsOf allow64dedup ++
         [BPF_STMT BPF_RET_K SECCOMP_RET_TRAP])).length = a64.length + 32 := by
    simp [hA]
  by_cases hc : a64.length + 29 ≤ 255
  · rw [SetValidateArchitectureJumpTarget_some 2 _ (by rw [hL]; omega)]
    rw [if_pos hc]
    have hd : (BPF_STMT BPF_LD_W_ABS arch_nr ::
       BPF_JUMP BPF_JMP_JEQ_K AUDIT_ARCH_AARCH64 2 0 ::
       BPF_JUMP BPF_JMP_JEQ_K AUDIT_ARCH_ARM 1 0 ::
       BPF_STMT BPF_RET_K SECCOMP_RET_TRAP ::
       BPF_STMT BPF_LD_W_ABS syscall_nr ::
       (a64 ++ pairsOf allow64dedup ++
         [BPF_STMT BPF_RET_K SECCOMP_RET_TRAP])).length - 2 - 1
         = a64.length + 29 := by
      rw [hL]
      omega
    rw [hd]
    dsimp only
    rw [build_phase32_eq]
    simp [List.set]
  · rw [SetValidateArchitectureJumpTarget_none 2 _ (by rw [hL]; omega)]
    rw [if_neg hc]

theorem set_seccomp_filter_build_dedup_success (ns64 ns32 : List Nat)
    (h : ns64.length ≤ 113) :
    set_seccomp_filter_build_dedup (baselineFragment ns64) (baselineFragment ns32)
      = some (patchedProgramDedup ns64 ns32) := by
  rw [set_seccomp_filter_build_dedup_eq]
  rw [if_pos (by rw [baselineFragment, pairsOf_length]; omega)]
  simp [patchedProgramDedup, sectionBody, baselineFragment, pairsOf_length]

/-- Evaluation of the deduplicated program. -/
theorem seccompEval_patchedProgramDedup (ns64 ns32 : List Nat) (d : SeccompData) :
    seccompEval (patchedProgramDedup ns64 ns32) d
      = if d.arch = AUDIT_ARCH_AARCH64 then
          (if d.nr ∈ ns64 then some SECCOMP_RET_ALLOW
           else if d.nr ∈ allow64dedup then some SECCOMP_RET_ALLOW
           else some SECCOMP_RET_TRAP)
        else if d.arch = AUDIT_ARCH_ARM then
          (if d.nr ∈ ns32 then some SECCOMP_RET_ALLOW
           else if d.nr ∈ allow32 then some SECCOMP_RET_ALLOW
           else some SECCOMP_RET_TRAP)
        else some SECCOMP_RET_TRAP := by
  rw [seccompEval, patchedProgramDedup, run_ld_arch, run_jeq]
  by_cases hA : d.arch = AUDIT_ARCH_AARCH64
  · rw [if_pos hA, if_pos hA]
    rw [List.drop_succ_cons, List.drop_succ_cons, List.drop_zero]
    rw [run_sectionBody]
  · rw [if_neg hA, if_neg hA, List.drop_zero, run_jeq]
    by_cases hB : d.arch = AUDIT_ARCH_ARM
    · rw [if_pos hB, if_pos hB]
      have hd : (BPF_STMT BPF_RET_K SECCOMP_RET_TRAP ::
            (sectionBody ns64 allow64dedup ++ sectionBody ns32 allow32)).drop
              (2 * ns64.length + 29)
          = sectionBody ns32 allow32 := by
        rw [show (BPF_STMT BPF_RET_K SECCOMP_RET_TRAP ::
              (sectionBody ns64 allow64dedup ++ sectionBody ns32 allow32))
            = (BPF_STMT BPF_RET_K SECCOMP_RET_TRAP ::
              sectionBody ns64 allow64dedup) ++ sectionBody ns32 allow32 from by
          simp]
        refine List.drop_left' ?_
        rw [List.length_cons, sectionBody_length]
        rw [show allow64dedup.length = 13 from rfl]
      rw [hd]
      rw [show sectionBody ns32 allow32
            = sectionBody ns32 allow32 ++ [] from by simp]
      rw [run_sectionBody]
    · rw [if_neg hB, List.drop_zero, run_ret, if_neg hB]

/-- Membership in the 64-bit allow-list is unchanged by removing the
duplicate entry. -/
theorem mem_allow64_iff_dedup (n : Nat) : n ∈ allow64 ↔ n ∈ allow64dedup := by
  simp [allow64, allow64dedup]
  tauto

/-- When the Offset Patcher reports success, the result is exactly the input
with the instruction at `offset` overwritten by the compare-equal jump whose
true-skip is the distance to the end of the input. -/
theorem SetValidateArchitectureJumpTarget_some_inv (offset : Nat) (f g2 : filter)
    (h : SetValidateArchitectureJumpTarget offset f = some g2) :
    g2 = f.set offset
      (BPF_JUMP BPF_JMP_JEQ_K AUDIT_ARCH_ARM (f.length - offset - 1) 0) := by
  rcases Nat.lt_or_ge 255 (f.length - offset - 1) with hgt | hle
  · rw [SetValidateArchitectureJumpTarget_none _ _ hgt] at h
    exact absurd h (by simp)
  · rw [SetValidateArchitectureJumpTarget_some _ _ hle] at h
    exact (Option.some.inj h).symm

/-! ### Claims -/

/-- C1: the claim states that on every failure of the build-and-install
sequence (jump-offset patching failure or kernel installation failure),
`Seccomp_setPolicy` terminates the process with a non-zero status, and that
there is no execution on which `set_seccomp_filter` fails while the process
continues unfiltered.  The code violates this on the patching-failure path:
`set_seccomp_filter` is declared `bool` but executes `return -1;`, and -1
converts to `true`, so `Seccomp_setPolicy` sees success and returns control
with no filter installed.  Witnessed here at a 225-instruction 64-bit
baseline fragment (patch distance 256): construction fails, yet the returned
flag is `true`, no install call is made, and the entry point returns instead
of exiting.  (The installation-failure leg does behave as claimed: with an
empty baseline and a failing `prctl`, the process exits with status 1.) -/
theorem claim_C1_code_bug :
    set_seccomp_filter_build
        (List.replicate 225 (BPF_STMT BPF_RET_K SECCOMP_RET_TRAP)) [] = none
    ∧ (set_seccomp_filter
        (List.replicate 225 (BPF_STMT BPF_RET_K SECCOMP_RET_TRAP)) [] true).ret
        = true
    ∧ (set_seccomp_filter
        (List.replicate 225 (BPF_STMT BPF_RET_K SECCOMP_RET_TRAP)) [] true).installCall
        = none
    ∧ Seccomp_setPolicy
        (List.replicate 225 (BPF_STMT BPF_RET_K SECCOMP_RET_TRAP)) [] true
        = PolicyOutcome.returned
    ∧ Seccomp_setPolicy [] [] false = PolicyOutcome.exited 1
    ∧ Seccomp_setPolicy [] [] true = PolicyOutcome.returned := by
  have hb : set_seccomp_filter_build
      (List.replicate 225 (BPF_STMT BPF_RET_K SECCOMP_RET_TRAP)) []
      = none := by
    rw [set_seccomp_filter_build_eq,
        if_neg (by rw [List.length_replicate]; omega)]
  have hb0 : set_seccomp_filter_build ([] : filter) ([] : filter)
      = some (BPF_STMT BPF_LD_W_ABS arch_nr ::
              BPF_JUMP BPF_JMP_JEQ_K AUDIT_ARCH_AARCH64 2 0 ::
              BPF_JUMP BPF_JMP_JEQ_K AUDIT_ARCH_ARM 31 0 ::
              BPF_STMT BPF_RET_K SECCOMP_RET_TRAP ::
              ((BPF_STMT BPF_LD_W_ABS syscall_nr ::
                 ([] ++ pairsOf allow64 ++
                   [BPF_STMT BPF_RET_K SECCOMP_RET_TRAP])) ++
               (BPF_STMT BPF_LD_W_ABS syscall_nr ::
                 ([] ++ pairsOf allow32 ++
                   [BPF_STMT BPF_RET_K SECCOMP_RET_TRAP])))) := by
    rw [set_seccomp_filter_build_eq]
    simp
  have h1 : set_seccomp_filter
      (List.replicate 225 (BPF_STMT BPF_RET_K SECCOMP_RET_TRAP)) [] true
      = ⟨true, none⟩ := by
    simp only [set_seccomp_filter, hb]
  have h0 : ∀ ok : Bool, set_seccomp_filter ([] : filter) ([] : filter) ok
      = ⟨ok, some (install_filter_prog
          (BPF_STMT BPF_LD_W_ABS arch_nr ::
           BPF_JUMP BPF_JMP_JEQ_K AUDIT_ARCH_AARCH64 2 0 ::
           BPF_JUMP BPF_JMP_JEQ_K AUDIT_ARCH_ARM 31 0 ::
           BPF_STMT BPF_RET_K SECCOMP_RET_TRAP ::
           ((BPF_STMT BPF_LD_W_ABS syscall_nr ::
              ([] ++ pairsOf allow64 ++
                [BPF_STMT BPF_RET_K SECCOMP_RET_TRAP])) ++
            (BPF_STMT BPF_LD_W_ABS syscall_nr ::
              ([] ++ pairsOf allow32 ++
                [BPF_STMT BPF_RET_K SECCOMP_RET_TRAP])))))⟩ := by
    intro ok
    simp only [set_seccomp_filter, hb0, install_filter]
  refine ⟨hb, ?_, ?_, ?_, ?_, ?_⟩
  · rw [h1]
  · rw [h1]
  · simp only [Seccomp_setPolicy, h1]
    simp
  · simp only [Seccomp_setPolicy, h0]
    rfl
  · simp only [Seccomp_setPolicy, h0]
    rfl

/-- C2: for a program `f` and placeholder index `i < f.length`, the Offset
Patcher computes `distance = f.length - i - 1`; it fails exactly when the
distance exceeds 255 (255 succeeds, 256 fails), and on success it overwrites
the instruction at index `i` with a compare-equal jump whose true branch
skips exactly `distance` following instructions, landing at index
`i + 1 + distance = f.length`, the first instruction appended after the
patch.  On patch failure the build returns without ever reaching the kernel
install call. -/
theorem claim_C2_offset_patcher (f : filter) (i : Nat) (h : i < f.length) :
    (255 < f.length - i - 1 → SetValidateArchitectureJumpTarget i f = none)
    ∧ (f.length - i - 1 ≤ 255 →
        SetValidateArchitectureJumpTarget i f
          = some (f.set i
              (BPF_JUMP BPF_JMP_JEQ_K AUDIT_ARCH_ARM (f.length - i - 1) 0))
        ∧ i + 1 + (f.length - i - 1) = f.length)
    ∧ (∀ a64 a32 : filter, ∀ ok : Bool,
        set_seccomp_filter_build a64 a32 = none →
          (set_seccomp_filter a64 a32 ok).installCall = none) := by
  refine ⟨fun hgt => SetValidateArchitectureJumpTarget_none i f hgt,
          fun hle => ⟨SetValidateArchitectureJumpTarget_some i f hle, by omega⟩,
          fun a64 a32 ok hb => by simp [set_seccomp_filter, hb]⟩

/-- Witness for C2 at a concrete input: a 257-instruction program patched at
index 0 (distance 256) fails, and a 3-instruction program patched at index 0
(distance 2) succeeds with the jump landing at index 3 = length. -/
theorem claim_C2_offset_patcher_witness :
    (SetValidateArchitectureJumpTarget 0
        (List.replicate 257 (BPF_STMT BPF_RET_K SECCOMP_RET_TRAP)) = none)
    ∧ (SetValidateArchitectureJumpTarget 0
        [BPF_JUMP BPF_JMP_JEQ_K AUDIT_ARCH_ARM 1 0,
         BPF_STMT BPF_RET_K SECCOMP_RET_TRAP,
         BPF_STMT BPF_RET_K SECCOMP_RET_ALLOW]
        = some ([BPF_JUMP BPF_JMP_JEQ_K AUDIT_ARCH_ARM 1 0,
                 BPF_STMT BPF_RET_K SECCOMP_RET_TRAP,
                 BPF_STMT BPF_RET_K SECCOMP_RET_ALLOW].set 0
            (BPF_JUMP BPF_JMP_JEQ_K AUDIT_ARCH_ARM
              ([BPF_JUMP BPF_JMP_JEQ_K AUDIT_ARCH_ARM 1 0,
                BPF_STMT BPF_RET_K SECCOMP_RET_TRAP,
                BPF_STMT BPF_RET_K SECCOMP_RET_ALLOW].length - 0 - 1) 0))) := by
  constructor
  · exact (claim_C2_offset_patcher
      (List.replicate 257 (BPF_STMT BPF_RET_K SECCOMP_RET_TRAP)) 0
      (by simp)).1 (by simp)
  · exact ((claim_C2_offset_patcher
      [BPF_JUMP BPF_JMP_JEQ_K AUDIT_ARCH_ARM 1 0,
       BPF_STMT BPF_RET_K SECCOMP_RET_TRAP,
       BPF_STMT BPF_RET_K SECCOMP_RET_ALLOW] 0
      (by decide)).2.1 (by decide)).1

/-- C3 counterexample: the claim asserts that the 32-bit compare's true-skip
of 1 "falls through to the next instruction, which is a placeholder jump into
the 32-bit section" — i.e. that the placeholder is a separate instruction
between the 32-bit compare and the Trap.  In the code the instruction
following the 32-bit compare (index 3) is the Trap itself, and the returned
placeholder index 2 designates the 32-bit compare instruction: compare and
placeholder are one and the same instruction, and its pre-patch true-skip of
1 skips the Trap rather than falling through to the next instruction. -/
theorem claim_C3_counterexample :
    (ValidateArchitectureAndJumpIfNeeded ([] : filter)).1.get? 3
      = some (BPF_STMT BPF_RET_K SECCOMP_RET_TRAP)
    ∧ (ValidateArchitectureAndJumpIfNeeded ([] : filter)).2 = 2
    ∧ (ValidateArchitectureAndJumpIfNeeded ([] : filter)).1.get? 2
      = some (BPF_JUMP BPF_JMP_JEQ_K AUDIT_ARCH_ARM 1 0) := by
  decide

/-- C3 (amended): the architecture dispatcher emits, in order: a load of the
architecture field; a compare against the 64-bit constant with true-skip 2,
reaching the 64-bit examine-syscall instruction at index 4 of the assembled
program; a compare against the 32-bit constant with true-skip 1 which is
itself the placeholder later patched into the jump to the 32-bit section
(pre-patch, its true-skip of 1 skips the following Trap and lands on the
64-bit examine-syscall as well, and its false branch falls through to the
Trap); and a Trap.  It returns the index `f.length + 2` of that
compare/placeholder instruction, and whenever the Offset Patcher succeeds it
overwrites exactly the instruction at that index. -/
theorem claim_C3_dispatcher (f : filter) :
    ValidateArchitectureAndJumpIfNeeded f
      = (f ++ [BPF_STMT BPF_LD_W_ABS arch_nr,
               BPF_JUMP BPF_JMP_JEQ_K AUDIT_ARCH_AARCH64 2 0,
               BPF_JUMP BPF_JMP_JEQ_K AUDIT_ARCH_ARM 1 0,
               BPF_STMT BPF_RET_K SECCOMP_RET_TRAP], f.length + 2)
    ∧ (ValidateArchitectureAndJumpIfNeeded f).1.get? (f.length + 2)
        = some (BPF_JUMP BPF_JMP_JEQ_K AUDIT_ARCH_ARM 1 0)
    ∧ (∀ g g2 : filter,
        SetValidateArchitectureJumpTarget
            (ValidateArchitectureAndJumpIfNeeded f).2 g = some g2 →
          g2 = g.set (f.length + 2)
            (BPF_JUMP BPF_JMP_JEQ_K AUDIT_ARCH_ARM
              (g.length - (f.length + 2) - 1) 0))
    ∧ (∀ ns64 ns32 : List Nat,
        (patchedProgram ns64 ns32).get? 4
          = some (BPF_STMT BPF_LD_W_ABS syscall_nr)) := by
  have hv : ValidateArchitectureAndJumpIfNeeded f
      = (f ++ [BPF_STMT BPF_LD_W_ABS arch_nr,
               BPF_JUMP BPF_JMP_JEQ_K AUDIT_ARCH_AARCH64 2 0,
               BPF_JUMP BPF_JMP_JEQ_K AUDIT_ARCH_ARM 1 0,
               BPF_STMT BPF_RET_K SECCOMP_RET_TRAP], f.length + 2) := by
    simp [ValidateArchitectureAndJumpIfNeeded, Trap]
  refine ⟨hv, ?_, ?_, ?_⟩
  · rw [hv]
    rw [List.get?_append_right (by omega)]
    simp
  · intro g g2 hg
    rw [hv] at hg
    exact SetValidateArchitectureJumpTarget_some_inv _ g g2 hg
  · intro ns64 ns32
    rw [patchedProgram, sectionBody]
    rfl

/-- A successful construction always yields `patchedProgram`. -/
theorem build_some_patched (ns64 ns32 : List Nat) (p : filter)
    (h : set_seccomp_filter_build (baselineFragment ns64) (baselineFragment ns32)
          = some p) :
    p = patchedProgram ns64 ns32 := by
  by_cases hl : ns64.length ≤ 112
  · rw [set_seccomp_filter_build_success ns64 ns32 hl] at h
    exact (Option.some.inj h).symm
  · rw [set_seccomp_filter_build_fail ns64 ns32 (by omega)] at h
    exact absurd h (by simp)

/-- C4: default deny.  For every syscall number `n` in neither an
architecture's explicit allow-list nor its baseline fragment, the fully
assembled and patched program evaluates an input with that architecture and
syscall number to Trap, never Allow; and each architecture section's final
appended instruction is the Trap terminator every unmatched compare falls
through to. -/
theorem claim_C4_default_deny (ns64 ns32 : List Nat) (p : filter) (n : Nat)
    (h : set_seccomp_filter_build (baselineFragment ns64) (baselineFragment ns32)
          = some p) :
    (n ∉ ns64 → n ∉ allow64 →
      seccompEval p ⟨n, AUDIT_ARCH_AARCH64⟩ = some SECCOMP_RET_TRAP)
    ∧ (n ∉ ns32 → n ∉ allow32 →
      seccompEval p ⟨n, AUDIT_ARCH_ARM⟩ = some SECCOMP_RET_TRAP)
    ∧ (sectionBody ns64 allow64).getLast?
        = some (BPF_STMT BPF_RET_K SECCOMP_RET_TRAP)
    ∧ (sectionBody ns32 allow32).getLast?
        = some (BPF_STMT BPF_RET_K SECCOMP_RET_TRAP) := by
  rw [build_some_patched ns64 ns32 p h]
  refine ⟨fun h1 h2 => ?_, fun h1 h2 => ?_, ?_, ?_⟩
  · rw [seccompEval_patchedProgram]
    simp [h1, h2]
  · rw [seccompEval_patchedProgram]
    simp [h1, h2, AUDIT_ARCH_ARM, AUDIT_ARCH_AARCH64]
  · rw [show sectionBody ns64 allow64
        = (BPF_STMT BPF_LD_W_ABS syscall_nr ::
            (baselineFragment ns64 ++ pairsOf allow64)) ++
          [BPF_STMT BPF_RET_K SECCOMP_RET_TRAP] from by
      simp [sectionBody]]
    exact List.getLast?_concat _
  · rw [show sectionBody ns32 allow32
        = (BPF_STMT BPF_LD_W_ABS syscall_nr ::
            (baselineFragment ns32 ++ pairsOf allow32)) ++
          [BPF_STMT BPF_RET_K SECCOMP_RET_TRAP] from by
      simp [sectionBody]]
    exact List.getLast?_concat _

/-- C5: allow correctness.  For every explicit allow entry `n` of an
architecture's table, the fully assembled and patched program evaluates an
input with that architecture's constant and syscall number `n` to Allow (the
modelled baseline fragment never terminates evaluation other than by Allow,
so no further assumption on it is needed). -/
theorem claim_C5_allow_correct (ns64 ns32 : List Nat) (p : filter) (n : Nat)
    (h : set_seccomp_filter_build (baselineFragment ns64) (baselineFragment ns32)
          = some p) :
    (n ∈ allow64 →
      seccompEval p ⟨n, AUDIT_ARCH_AARCH64⟩ = some SECCOMP_RET_ALLOW)
    ∧ (n ∈ allow32 →
      seccompEval p ⟨n, AUDIT_ARCH_ARM⟩ = some SECCOMP_RET_ALLOW) := by
  rw [build_some_patched ns64 ns32 p h]
  constructor
  · intro hm
    rw [seccompEval_patchedProgram]
    by_cases hb : n ∈ ns64 <;> simp [hm, hb]
  · intro hm
    rw [seccompEval_patchedProgram]
    by_cases hb : n ∈ ns32 <;>
      simp [hm, hb, AUDIT_ARCH_ARM, AUDIT_ARCH_AARCH64]

/-- C6: architecture isolation, universally in the syscall id and in both
directions.  For every id allowed under the 64-bit architecture (explicit
list or baseline) but not under the 32-bit one, an input with the 32-bit
architecture and that id is routed to the 32-bit section and traps there;
symmetrically for an id allowed only under the 32-bit architecture evaluated
under the 64-bit constant.  In particular id 98 is in the 64-bit allow-list
but not the 32-bit one, and (arch=32-bit, syscall=98) traps whenever the
32-bit baseline does not separately allow 98. -/
theorem claim_C6_arch_isolation (ns64 ns32 : List Nat) (p : filter) (n : Nat)
    (h : set_seccomp_filter_build (baselineFragment ns64) (baselineFragment ns32)
          = some p) :
    ((n ∈ allow64 ∨ n ∈ ns64) → n ∉ allow32 → n ∉ ns32 →
        seccompEval p ⟨n, AUDIT_ARCH_ARM⟩ = some SECCOMP_RET_TRAP)
    ∧ ((n ∈ allow32 ∨ n ∈ ns32) → n ∉ allow64 → n ∉ ns64 →
        seccompEval p ⟨n, AUDIT_ARCH_AARCH64⟩ = some SECCOMP_RET_TRAP)
    ∧ 98 ∈ allow64 ∧ 98 ∉ allow32
    ∧ (98 ∉ ns32 → seccompEval p ⟨98, AUDIT_ARCH_ARM⟩ = some SECCOMP_RET_TRAP) := by
  rw [build_some_patched ns64 ns32 p h]
  refine ⟨fun _ h1 h2 => ?_, fun _ h1 h2 => ?_, by decide, by decide,
          fun h98 => ?_⟩
  · rw [seccompEval_patchedProgram]
    simp [h1, h2, AUDIT_ARCH_ARM, AUDIT_ARCH_AARCH64]
  · rw [seccompEval_patchedProgram]
    simp [h1, h2]
  · rw [seccompEval_patchedProgram]
    simp [h98, AUDIT_ARCH_ARM, AUDIT_ARCH_AARCH64]
    decide

/-- C7: dispatcher defaulting.  An input whose architecture field matches
neither recognized constant evaluates to Trap under the fully assembled and
patched program; the result is the same for every choice of baseline
fragments and syscall number, i.e. evaluation never enters either
architecture section. -/
theorem claim_C7_unknown_arch (ns64 ns32 : List Nat) (p : filter)
    (a n : Nat)
    (h : set_seccomp_filter_build (baselineFragment ns64) (baselineFragment ns32)
          = some p)
    (h1 : a ≠ AUDIT_ARCH_AARCH64) (h2 : a ≠ AUDIT_ARCH_ARM) :
    seccompEval p ⟨n, a⟩ = some SECCOMP_RET_TRAP := by
  rw [build_some_patched ns64 ns32 p h]
  rw [seccompEval_patchedProgram]
  simp [h1, h2]

/-- C8: `AllowSyscall(f, n)` appends exactly two instructions and nothing
else — a compare-equal against `n` with true-skip 0 and false-skip 1 at
index `f.length`, immediately followed at index `f.length + 1` by an Allow
return — and under evaluation the compare's false branch falls through to
the first instruction appended after the pair. -/
theorem claim_C8_allow_syscall (f : filter) (n : Nat) :
    AllowSyscall f n
      = f ++ [BPF_JUMP BPF_JMP_JEQ_K n 0 1,
              BPF_STMT BPF_RET_K SECCOMP_RET_ALLOW]
    ∧ (AllowSyscall f n).length = f.length + 2
    ∧ (AllowSyscall f n).get? f.length
        = some (BPF_JUMP BPF_JMP_JEQ_K n 0 1)
    ∧ (AllowSyscall f n).get? (f.length + 1)
        = some (BPF_STMT BPF_RET_K SECCOMP_RET_ALLOW)
    ∧ (∀ (d : SeccompData) (rest : List SockFilter) (acc : Nat),
        run d (BPF_JUMP BPF_JMP_JEQ_K n 0 1 ::
               BPF_STMT BPF_RET_K SECCOMP_RET_ALLOW :: rest) acc
          = if acc = n then some SECCOMP_RET_ALLOW else run d rest acc) := by
  have he : AllowSyscall f n
      = f ++ [BPF_JUMP BPF_JMP_JEQ_K n 0 1,
              BPF_STMT BPF_RET_K SECCOMP_RET_ALLOW] := by
    simp [AllowSyscall, Allow]
  refine ⟨he, ?_, ?_, ?_, ?_⟩
  · rw [he]
    simp
  · rw [he, List.get?_append_right (le_refl _)]
    simp
  · rw [he, List.get?_append_right (by omega)]
    simp
  · intro d rest acc
    rw [run_jeq]
    by_cases hc : acc = n <;> simp [hc, run_ret]

/-- C9: the duplicate allow entry is semantically redundant.  The 64-bit
allow-list contains syscall 128 twice (source lines 138 and 148); for any
baseline fragments on which both builds succeed, the program assembled with
the duplicate entry evaluates every input to the same result as the program
assembled with the second entry removed. -/
theorem claim_C9_duplicate_redundant (ns64 ns32 : List Nat) (p q : filter)
    (h : set_seccomp_filter_build (baselineFragment ns64) (baselineFragment ns32)
          = some p)
    (h2 : set_seccomp_filter_build_dedup
            (baselineFragment ns64) (baselineFragment ns32) = some q) :
    allow64.count 128 = 2
    ∧ ∀ d : SeccompData, seccompEval p d = seccompEval q d := by
  refine ⟨by decide, ?_⟩
  rw [build_some_patched ns64 ns32 p h]
  have hq : q = patchedProgramDedup ns64 ns32 := by
    by_cases hl : ns64.length ≤ 113
    · rw [set_seccomp_filter_build_dedup_success ns64 ns32 hl] at h2
      exact (Option.some.inj h2).symm
    · rw [set_seccomp_filter_build_dedup_eq,
          if_neg (by rw [baselineFragment, pairsOf_length]; omega)] at h2
      exact absurd h2 (by simp)
  rw [hq]
  intro d
  rw [seccompEval_patchedProgram, seccompEval_patchedProgramDedup]
  have hm := mem_allow64_iff_dedup d.nr
  by_cases hA : d.arch = AUDIT_ARCH_AARCH64 <;>
    by_cases hB : d.arch = AUDIT_ARCH_ARM <;>
      simp [hA, hB, hm]

/-- C10: `install_filter` hands the kernel a `sock_fprog` whose length field
is the instruction count cast to `unsigned short`, i.e. reduced modulo 2^16;
the field equals the true instruction count exactly when the program has at
most 65535 instructions. -/
theorem claim_C10_u16_length (f : filter) :
    (install_filter_prog f).len = f.length % 65536
    ∧ ((install_filter_prog f).len = f.length ↔ f.length ≤ 65535) := by
  refine ⟨rfl, ?_⟩
  constructor
  · intro he
    have hm : f.length % 65536 < 65536 := Nat.mod_lt _ (by omega)
    simp [install_filter_prog] at he
    omega
  · intro hle
    simp [install_filter_prog, Nat.mod_eq_of_lt (show f.length < 65536 by omega)]

/-! ### Witnesses -/

/-- Witness for C3 at the empty program: the placeholder index is 2 and
holds the 32-bit compare instruction. -/
theorem claim_C3_dispatcher_witness :
    (ValidateArchitectureAndJumpIfNeeded ([] : filter)).1.get?
        (List.length ([] : filter) + 2)
      = some (BPF_JUMP BPF_JMP_JEQ_K AUDIT_ARCH_ARM 1 0) :=
  (claim_C3_dispatcher []).2.1

/-- Witness for C4 with empty baselines: syscall 1 is in neither 64-bit list,
and the built program traps on it under the 64-bit architecture. -/
theorem claim_C4_default_deny_witness :
    seccompEval (patchedProgram [] []) ⟨1, AUDIT_ARCH_AARCH64⟩
      = some SECCOMP_RET_TRAP :=
  (claim_C4_default_deny [] [] (patchedProgram [] []) 1 (by decide)).1
    (by decide) (by decide)

/-- Witness for C5 with empty baselines: syscall 98 (futex) is in the 64-bit
allow-list and the built program allows it under the 64-bit architecture. -/
theorem claim_C5_allow_correct_witness :
    seccompEval (patchedProgram [] []) ⟨98, AUDIT_ARCH_AARCH64⟩
      = some SECCOMP_RET_ALLOW :=
  (claim_C5_allow_correct [] [] (patchedProgram [] []) 98 (by decide)).1
    (by decide)

/-- Witness for C6 with empty baselines, one instance per direction:
syscall 98 is 64-bit-only and traps under the 32-bit architecture, and
syscall 42 (pipe) is 32-bit-only and traps under the 64-bit architecture. -/
theorem claim_C6_arch_isolation_witness :
    seccompEval (patchedProgram [] []) ⟨98, AUDIT_ARCH_ARM⟩
        = some SECCOMP_RET_TRAP
    ∧ seccompEval (patchedProgram [] []) ⟨42, AUDIT_ARCH_AARCH64⟩
        = some SECCOMP_RET_TRAP := by
  constructor
  · exact (claim_C6_arch_isolation [] [] (patchedProgram [] []) 98
      (by decide)).1 (by decide) (by decide) (by decide)
  · exact (claim_C6_arch_isolation [] [] (patchedProgram [] []) 42
      (by decide)).2.1 (by decide) (by decide) (by decide)

/-- Witness for C7 with empty baselines: architecture value 7 matches
neither constant and the built program traps. -/
theorem claim_C7_unknown_arch_witness :
    seccompEval (patchedProgram [] []) ⟨98, 7⟩ = some SECCOMP_RET_TRAP :=
  claim_C7_unknown_arch [] [] (patchedProgram [] []) 7 98 (by decide)
    (by decide) (by decide)

/-- Witness for C8 at a concrete program and syscall number. -/
theorem claim_C8_allow_syscall_witness :
    AllowSyscall [] 5
      = [] ++ [BPF_JUMP BPF_JMP_JEQ_K 5 0 1,
               BPF_STMT BPF_RET_K SECCOMP_RET_ALLOW] :=
  (claim_C8_allow_syscall [] 5).1

/-- Witness for C9 with empty baselines, evaluated at the duplicated syscall
number itself. -/
theorem claim_C9_duplicate_redundant_witness :
    allow64.count 128 = 2
    ∧ seccompEval (patchedProgram [] []) ⟨128, AUDIT_ARCH_AARCH64⟩
        = seccompEval (patchedProgramDedup [] []) ⟨128, AUDIT_ARCH_AARCH64⟩ := by
  have h := claim_C9_duplicate_redundant [] []
    (patchedProgram [] []) (patchedProgramDedup [] []) (by decide) (by decide)
  exact ⟨h.1, h.2 ⟨128, AUDIT_ARCH_AARCH64⟩⟩

/-- Witness for C10 at a concrete one-instruction program. -/
theorem claim_C10_u16_length_witness :
    (install_filter_prog [BPF_STMT BPF_RET_K SECCOMP_RET_TRAP]).len
      = [BPF_STMT BPF_RET_K SECCOMP_RET_TRAP].length % 65536 :=
  (claim_C10_u16_length [BPF_STMT BPF_RET_K SECCOMP_RET_TRAP]).1

end Seccomp
